import Mathlib

/-!
# Shallow embedding of `webhook_ping.js` (hexo_webhook_bloggerrolle)

This file embeds the Hexo webhook-ping plugin in Lean 4 and proves the
specification's claims about it.

Embedding conventions:
* A JavaScript `Set` of strings (insertion-ordered, duplicate-free) is a
  `JsSet := List String` kept duplicate-free by `JsSet.add`, which mirrors
  `Set.prototype.add` (no-op on an element already present, otherwise appended).
* The module-level mutable state (`previouslyPingedSlugs`,
  `newSlugsToPingThisSession`) is an explicit `PluginState` threaded through
  the handlers.
* Observable side effects (log lines, staging a slug, initiating an HTTPS
  request) are recorded in an `Effect` trace, in the order the source
  performs them.
* The persisted file `pinged_posts.json` is modelled at the JSON-value level
  by `StoredFile`: absent, present but `JSON.parse` throws, present and
  parseable but not an array, or an array of strings.  `JSON.stringify` of an
  array of strings round-trips to the array case.
* `fs.writeFileSync` either succeeds or throws; the environment's choice is
  the boolean `saveOk` parameter of `onGenerationComplete`.
* JavaScript string falsiness (`!x` for a possibly-undefined string) is
  `optFalsy : Option String → Bool`.
-/

set_option autoImplicit false

namespace WebhookPing

/-- A JavaScript `Set` of strings: an insertion-ordered duplicate-free list. -/
abbrev JsSet := List String

/-- `Set.prototype.has`. -/
def JsSet.has (s : JsSet) (x : String) : Bool := s.contains x

/-- `Set.prototype.add`: no-op if present, else append (insertion order). -/
def JsSet.add (s : JsSet) (x : String) : JsSet :=
  if s.contains x then s else s ++ [x]

/-- `new Set(array)`: insert the array's elements left to right. -/
def JsSet.ofArray (l : List String) : JsSet := l.foldl JsSet.add []

/-- UTF-8 encoding of a single character, as byte values. -/
def utf8Bytes (c : Char) : List Nat :=
  let n := c.toNat
  if n < 128 then [n]
  else if n < 2048 then [192 + n / 64, 128 + n % 64]
  else if n < 65536 then [224 + n / 4096, 128 + (n / 64) % 64, 128 + n % 64]
  else [240 + n / 262144, 128 + (n / 4096) % 64, 128 + (n / 64) % 64, 128 + n % 64]

/-- `Buffer.byteLength(s)`: the UTF-8 byte length of a string. -/
def byteLength (s : String) : Nat :=
  (s.data.map (fun c => (utf8Bytes c).length)).foldl (· + ·) 0

/-- Upper-case hexadecimal digit for `n < 16`. -/
def hexUpper (n : Nat) : Char :=
  if n < 10 then Char.ofNat (48 + n) else Char.ofNat (55 + n)

/-- Percent-encoding of one byte, `%XY` with upper-case hex. -/
def percentEncodeByte (b : Nat) : List Char :=
  [Char.ofNat 37, hexUpper (b / 16), hexUpper (b % 16)]

/-- The characters Node's `querystring.escape` leaves unescaped:
`A-Z a-z 0-9 - . _ ~ ! * ( )` and the apostrophe (code 39). -/
def qsIsUnescaped (c : Char) : Bool :=
  (65 ≤ c.toNat && c.toNat ≤ 90) || (97 ≤ c.toNat && c.toNat ≤ 122) ||
  (48 ≤ c.toNat && c.toNat ≤ 57) ||
  c == Char.ofNat 45 || c == Char.ofNat 46 || c == Char.ofNat 95 ||
  c == Char.ofNat 126 || c == Char.ofNat 33 || c == Char.ofNat 42 ||
  c == Char.ofNat 39 || c == Char.ofNat 40 || c == Char.ofNat 41

/-- `querystring.escape`: percent-encode every character outside the
unescaped set, byte by byte of its UTF-8 encoding. -/
def qsEscape (s : String) : String :=
  String.mk (s.data.foldr
    (fun c acc =>
      if qsIsUnescaped c then c :: acc
      else ((utf8Bytes c).map percentEncodeByte).foldr (· ++ ·) [] ++ acc)
    [])

/-- `querystring.stringify` on an object with string values:
`k1=v1&k2=v2` with escaped keys and values. -/
def qsStringify (pairs : List (String × String)) : String :=
  String.intercalate "&" (pairs.map (fun p => qsEscape p.1 ++ "=" ++ qsEscape p.2))

/-- The request body `querystring.stringify({ url: blogUrl })`
(source line 70). -/
def requestBody (blogUrl : String) : String := qsStringify [("url", blogUrl)]

/-- C0 control or space (code points up to 0x20), the set the WHATWG URL
parser strips from the ends of its input. -/
def isC0OrSpace (c : Char) : Bool := decide (c.toNat ≤ 32)

/-- ASCII tab, LF and CR, which the WHATWG URL parser removes from its
input before parsing. -/
def isTabOrNewline (c : Char) : Bool := c.toNat == 9 || c.toNat == 10 || c.toNat == 13

/-- Strip the trailing run of C0-control-or-space characters. -/
def stripTrailingC0OrSpace (l : List Char) : List Char :=
  (l.reverse.dropWhile isC0OrSpace).reverse

/-- WHATWG URL-parser input preprocessing: strip leading and trailing
C0-control-or-space, then remove every tab and newline. -/
def urlPreprocess (l : List Char) : List Char :=
  (stripTrailingC0OrSpace (l.dropWhile isC0OrSpace)).filter (fun c => !(isTabOrNewline c))

/-- The WHATWG special-query percent-encode set: C0 controls and space,
code points above `~` (0x7E), `"`, `#`, `<`, `>`, and (special schemes
only) the apostrophe (0x27). -/
def inSpecialQuerySet (c : Char) : Bool :=
  decide (c.toNat ≤ 32) || decide (c.toNat > 126) || c.toNat == 34 || c.toNat == 35 ||
  c.toNat == 60 || c.toNat == 62 || c.toNat == 39

/-- WHATWG percent-encoding of query characters with the special-query set:
characters in the set are replaced by the upper-case-hex percent-encoding
of their UTF-8 bytes, the rest pass through. -/
def specialQueryEncode (l : List Char) : List Char :=
  l.foldr (fun c acc =>
    if inSpecialQuerySet c then ((utf8Bytes c).map percentEncodeByte).foldr (· ++ ·) [] ++ acc
    else c :: acc) []

/-- The relevant components of a WHATWG `URL` object: `hostname`,
`pathname`, `search`. -/
structure UrlParts where
  hostname : String
  pathname : String
  search : String
deriving Repr, DecidableEq

/-- `new URL(u)` for the `https://` URLs this plugin builds, following the
WHATWG basic URL parser on this shape: the input is preprocessed (ends
stripped of C0-control/space, tabs and newlines removed), the authority
runs to the first `/`, `?` or `#`, an empty path of the special `https`
scheme is normalised to `/`, the query runs from `?` to `#` and its
characters are serialised with the special-query percent-encode set, and
`search` is the empty string for a missing or empty query.  Host
canonicalisation beyond this is not modelled: the host this plugin builds
is fixed and already in canonical form. -/
def parseUrl (u : String) : UrlParts :=
  let input := urlPreprocess u.data
  let rest := input.drop 8
  let host := rest.takeWhile (fun c => !(c == Char.ofNat 47 || c == Char.ofNat 63 || c == Char.ofNat 35))
  let after := rest.drop host.length
  let path0 := after.takeWhile (fun c => !(c == Char.ofNat 63 || c == Char.ofNat 35))
  let after2 := after.drop path0.length
  let query := after2.takeWhile (fun c => !(c == Char.ofNat 35))
  { hostname := String.mk host
    pathname := if path0.isEmpty then "/" else String.mk path0
    search :=
      if query.length ≤ 1 then ""
      else String.mk (Char.ofNat 63 :: specialQueryEncode (query.drop 1)) }

/-- The characters of the slug that reach the query of the webhook URL
before percent-encoding: the slug sits at the very end of the URL string,
so the parser's input preprocessing strips its trailing C0-control/space
run and removes its tabs and newlines, and a `#` starts the fragment,
truncating the query there. -/
def queryPayloadChars (slug : String) : List Char :=
  ((stripTrailingC0OrSpace slug.data).filter (fun c => !(isTabOrNewline c))).takeWhile
    (fun c => !(c == Char.ofNat 35))

/-- The webhook target URL built for a slug (source line 69). -/
def webhookTargetUrl (slug : String) : String :=
  "https://ping.bloggerrolle.de?blog=" ++ slug

/-- The `options` object passed to `https.request` (source lines 76-85). -/
structure RequestOptions where
  hostname : String
  port : Nat
  path : String
  method : String
  contentType : String
  contentLength : Nat
deriving Repr, DecidableEq

/-- Construction of the `https.request` options for a slug and blog URL
(source lines 69-85). -/
def requestOptions (slug blogUrl : String) : RequestOptions :=
  let urlParts := parseUrl (webhookTargetUrl slug)
  { hostname := urlParts.hostname
    port := 443
    path := urlParts.pathname ++ urlParts.search
    method := "POST"
    contentType := "application/x-www-form-urlencoded"
    contentLength := byteLength (requestBody blogUrl) }

/-- One observable side effect of the plugin, in program order. -/
inductive Effect where
  | logInfo (msg : String)
  | logWarn (msg : String)
  | logError (msg : String)
  | stageSlug (slug : String)
  | httpsRequest (slug : String) (opts : RequestOptions) (body : String)
deriving Repr, DecidableEq

/-- Whether an effect is an outbound HTTPS request initiation. -/
def Effect.isRequest : Effect → Bool
  | .httpsRequest _ _ _ => true
  | _ => false

/-- Whether an effect is an error-severity log line. -/
def Effect.isErrorLog : Effect → Bool
  | .logError _ => true
  | _ => false

/-- Number of outbound request initiations in a trace. -/
def countRequests (es : List Effect) : Nat := es.countP (fun e => e.isRequest)

/-- The one configuration value the plugin reads:
`hexo.config.webhook_ping_blog_url`; `none` models `undefined`. -/
structure HexoConfig where
  webhook_ping_blog_url : Option String
deriving Repr, DecidableEq

/-- The fields of the `data` object the filter reads; `content` stands for
the rest of the post payload, which the filter never touches. -/
structure PostData where
  slug : Option String
  path : Option String
  source : Option String
  content : String
deriving Repr, DecidableEq

/-- The module-level mutable state (source lines 24-25). -/
structure PluginState where
  previouslyPingedSlugs : JsSet
  newSlugsToPingThisSession : JsSet
deriving Repr, DecidableEq

/-- JavaScript falsiness of a possibly-undefined string:
`undefined` and `""` are falsy. -/
def optFalsy (o : Option String) : Bool :=
  match o with
  | none => true
  | some s => s.isEmpty

/-- JavaScript `a || b` for two possibly-undefined strings, as rendered into
a log message (`undefined` prints as `"undefined"`). -/
def jsOr (a b : Option String) : String :=
  match a with
  | some s => if s.isEmpty then (match b with | some t => t | none => "undefined") else s
  | none => match b with | some t => t | none => "undefined"

/-- Result of one `after_post_render` filter call: the state after the call,
the trace of effects it performed, and its return value. -/
structure RenderResult where
  state : PluginState
  effects : List Effect
  ret : PostData
deriving Repr, DecidableEq

/-- The `after_post_render` filter (source lines 44-117).  Branches in
source order: falsy slug → warn and return; falsy configured URL → error and
return; slug already in `previouslyPingedSlugs` → info and return; slug
already in `newSlugsToPingThisSession` → info and return; otherwise log,
stage the slug, initiate the request, and return.  Every branch returns
`data` unchanged. -/
def onPostRendered (cfg : HexoConfig) (s : PluginState) (data : PostData) : RenderResult :=
  if optFalsy data.slug then
    { state := s
      effects := [.logWarn ("Webhook Ping: Post slug not found, skipping for: " ++ jsOr data.path data.source)]
      ret := data }
  else
    let postSlug := data.slug.getD ""
    if optFalsy cfg.webhook_ping_blog_url then
      { state := s
        effects := [.logError ("Webhook Ping: webhook_ping_blog_url is not configured in _config.yml. Skipping webhook for post: " ++ postSlug)]
        ret := data }
    else
      let blogUrl := cfg.webhook_ping_blog_url.getD ""
      if JsSet.has s.previouslyPingedSlugs postSlug then
        { state := s
          effects := [.logInfo ("Webhook Ping: Post " ++ postSlug ++ " was already pinged. Skipping.")]
          ret := data }
      else if JsSet.has s.newSlugsToPingThisSession postSlug then
        { state := s
          effects := [.logInfo ("Webhook Ping: Post " ++ postSlug ++ " is already scheduled for ping in this session. Skipping duplicate.")]
          ret := data }
      else
        let postData := requestBody blogUrl
        let opts := requestOptions postSlug blogUrl
        { state := { s with newSlugsToPingThisSession := JsSet.add s.newSlugsToPingThisSession postSlug }
          effects :=
            [.logInfo ("Webhook Ping: Pinging for NEW post: " ++ postSlug ++ " to " ++ webhookTargetUrl postSlug),
             .stageSlug postSlug,
             .httpsRequest postSlug opts postData]
          ret := data }

/-- The `res.on(data)` continuation (source lines 96-98): appends the chunk
to the local accumulator; it references neither set. -/
def onResponseData (responseBody chunk : String) : String := responseBody ++ chunk

/-- The `res.on(end)` continuation (source lines 99-103): logs the status
and body.  It is written here as a state-passing function to make its frame
explicit: the closure in the source captures neither
`previouslyPingedSlugs` nor `newSlugsToPingThisSession`, so the state passes
through untouched. -/
def onResponseEnd (s : PluginState) (statusCode : Nat) (targetUrl slug responseBody : String) :
    PluginState × List Effect :=
  (s, [.logInfo ("Webhook Ping: Response from " ++ targetUrl ++ " [" ++ toString statusCode ++ "] for " ++ slug ++ ": " ++ responseBody)])

/-- The `req.on(error)` continuation (source lines 106-111): logs the error;
as with `onResponseEnd`, the source closure touches neither set. -/
def onRequestError (s : PluginState) (targetUrl slug message : String) :
    PluginState × List Effect :=
  (s, [.logError ("Webhook Ping: Problem with request to " ++ targetUrl ++ " for " ++ slug ++ ": " ++ message)])

/-- The persisted `pinged_posts.json`, modelled at the JSON-value level:
absent; present but `JSON.parse` throws; present, parseable, but not an
array; or an array of strings. -/
inductive StoredFile where
  | absent
  | invalidJson (raw : String)
  | jsonNonArray (raw : String)
  | jsonArray (items : List String)
deriving Repr, DecidableEq

/-- Result of the startup load: the loaded set and the log trace. -/
structure LoadResult where
  slugs : JsSet
  effects : List Effect
deriving Repr, DecidableEq

/-- The startup `try` block (source lines 28-41): missing file → info log,
empty set; `JSON.parse` throws → caught, error log, empty set; parsed value
not an array → the `if (Array.isArray(...))` body is skipped, so no log at
all and the set stays empty; array → `new Set(parsedData)` and an info
log. -/
def load (f : StoredFile) : LoadResult :=
  match f with
  | .absent =>
      { slugs := []
        effects := [.logInfo "Webhook Ping: No pinged_posts.json found. Will create one after first pings."] }
  | .invalidJson _ =>
      { slugs := []
        effects := [.logError "Webhook Ping: Error loading pinged_posts.json:"] }
  | .jsonNonArray _ => { slugs := [], effects := [] }
  | .jsonArray items =>
      { slugs := JsSet.ofArray items
        effects := [.logInfo "Webhook Ping: Loaded previously pinged slugs from"] }

/-- Result of one `after_generate` hook call: state after the call, the
persisted file after the call, and the log trace. -/
structure CompleteResult where
  state : PluginState
  file : StoredFile
  effects : List Effect
deriving Repr, DecidableEq

/-- `newSlugsToPingThisSession.forEach(slug => previouslyPingedSlugs.add(slug))`
(source line 123). -/
def mergeInto (prev stage : JsSet) : JsSet := stage.foldl JsSet.add prev

/-- The `after_generate` hook (source lines 120-135).  If the session set is
non-empty it is merged into `previouslyPingedSlugs` (this happens before the
`try`), then `writeFileSync` either succeeds (`saveOk = true`: the file now
holds the merged array and the session set is cleared) or throws
(`saveOk = false`: caught, error and warning logged, session set left
intact, file unchanged).  With an empty session set nothing changes. -/
def onGenerationComplete (saveOk : Bool) (s : PluginState) (f : StoredFile) : CompleteResult :=
  if s.newSlugsToPingThisSession.length > 0 then
    let merged := mergeInto s.previouslyPingedSlugs s.newSlugsToPingThisSession
    if saveOk then
      { state := { previouslyPingedSlugs := merged, newSlugsToPingThisSession := [] }
        file := .jsonArray merged
        effects :=
          [.logInfo ("Webhook Ping: Attempting to save " ++ toString s.newSlugsToPingThisSession.length ++ " newly pinged slugs."),
           .logInfo ("Webhook Ping: Successfully saved pinged slugs. Total distinct posts pinged: " ++ toString merged.length)] }
    else
      { state := { previouslyPingedSlugs := merged, newSlugsToPingThisSession := s.newSlugsToPingThisSession }
        file := f
        effects :=
          [.logInfo ("Webhook Ping: Attempting to save " ++ toString s.newSlugsToPingThisSession.length ++ " newly pinged slugs."),
           .logError "Webhook Ping: Error saving pinged_posts.json:",
           .logWarn "Webhook Ping: Slugs pinged in this session might be re-pinged next time due to save error."] }
  else
    { state := s
      file := f
      effects := [.logInfo "Webhook Ping: No new posts were identified for pinging in this session."] }

/-- Boolean set-equality of two `JsSet`s (membership in both directions). -/
def sameMembers (a b : JsSet) : Bool :=
  a.all (fun x => b.contains x) && b.all (fun x => a.contains x)

/-! ## Basic lemmas about the embedded operations -/

theorem JsSet.contains_eq (s : JsSet) (y : String) : s.contains y = decide (y ∈ s) := by
  simp [List.contains]

theorem JsSet.has_eq (s : JsSet) (y : String) : JsSet.has s y = decide (y ∈ s) := by
  simp [JsSet.has, List.contains]

theorem JsSet.mem_add (s : JsSet) (x y : String) :
    y ∈ JsSet.add s x ↔ y ∈ s ∨ y = x := by
  simp only [JsSet.add, JsSet.contains_eq]
  by_cases h : x ∈ s
  · simp only [decide_eq_true h, if_true]
    constructor
    · exact Or.inl
    · rintro (hy | rfl)
      · exact hy
      · exact h
  · simp [h]

theorem mem_mergeInto (stage : JsSet) :
    ∀ (prev : JsSet) (x : String), x ∈ mergeInto prev stage ↔ x ∈ prev ∨ x ∈ stage := by
  induction stage with
  | nil => intro prev x; simp [mergeInto]
  | cons a t ih =>
      intro prev x
      have hstep : mergeInto prev (a :: t) = mergeInto (JsSet.add prev a) t := rfl
      rw [hstep, ih, JsSet.mem_add]
      simp only [List.mem_cons]
      tauto

theorem mem_ofArray (l : List String) (x : String) : x ∈ JsSet.ofArray l ↔ x ∈ l := by
  have h : JsSet.ofArray l = mergeInto [] l := rfl
  rw [h, mem_mergeInto]
  simp

theorem isEmpty_false_of_ne (s : String) (h : s ≠ "") : s.isEmpty = false := by
  rw [Bool.eq_false_iff]
  intro hh
  exact h ((String.isEmpty_iff s).mp hh)

/-- Reduction of `onPostRendered` in the dispatch branch: valid slug,
configured URL, slug fresh for both sets. -/
theorem onPostRendered_dispatch (cfg : HexoConfig) (s : PluginState) (d : PostData)
    (slug url : String)
    (hd : d.slug = some slug) (hs : slug ≠ "")
    (hc : cfg.webhook_ping_blog_url = some url) (hu : url ≠ "")
    (hp : slug ∉ s.previouslyPingedSlugs) (hn : slug ∉ s.newSlugsToPingThisSession) :
    onPostRendered cfg s d =
      { state := { previouslyPingedSlugs := s.previouslyPingedSlugs
                   newSlugsToPingThisSession := s.newSlugsToPingThisSession ++ [slug] }
        effects :=
          [.logInfo ("Webhook Ping: Pinging for NEW post: " ++ slug ++ " to " ++ webhookTargetUrl slug),
           .stageSlug slug,
           .httpsRequest slug (requestOptions slug url) (requestBody url)]
        ret := d } := by
  have hse : slug.isEmpty = false := isEmpty_false_of_ne slug hs
  have hue : url.isEmpty = false := isEmpty_false_of_ne url hu
  simp [onPostRendered, hd, hc, optFalsy, hse, hue, JsSet.has_eq, hp, hn, JsSet.add,
    JsSet.contains_eq]

/-- Reduction of `onPostRendered` when the slug is already in the persisted
set (and both slug and URL are otherwise valid). -/
theorem onPostRendered_prevSkip (cfg : HexoConfig) (s : PluginState) (d : PostData)
    (slug url : String)
    (hd : d.slug = some slug) (hs : slug ≠ "")
    (hc : cfg.webhook_ping_blog_url = some url) (hu : url ≠ "")
    (hp : slug ∈ s.previouslyPingedSlugs) :
    onPostRendered cfg s d =
      { state := s
        effects := [.logInfo ("Webhook Ping: Post " ++ slug ++ " was already pinged. Skipping.")]
        ret := d } := by
  have hse : slug.isEmpty = false := isEmpty_false_of_ne slug hs
  have hue : url.isEmpty = false := isEmpty_false_of_ne url hu
  simp [onPostRendered, hd, hc, optFalsy, hse, hue, JsSet.has_eq, hp]

/-- Reduction of `onPostRendered` when the slug is already staged in the
session set. -/
theorem onPostRendered_sessionSkip (cfg : HexoConfig) (s : PluginState) (d : PostData)
    (slug url : String)
    (hd : d.slug = some slug) (hs : slug ≠ "")
    (hc : cfg.webhook_ping_blog_url = some url) (hu : url ≠ "")
    (hp : slug ∉ s.previouslyPingedSlugs) (hn : slug ∈ s.newSlugsToPingThisSession) :
    onPostRendered cfg s d =
      { state := s
        effects := [.logInfo ("Webhook Ping: Post " ++ slug ++ " is already scheduled for ping in this session. Skipping duplicate.")]
        ret := d } := by
  have hse : slug.isEmpty = false := isEmpty_false_of_ne slug hs
  have hue : url.isEmpty = false := isEmpty_false_of_ne url hu
  simp [onPostRendered, hd, hc, optFalsy, hse, hue, JsSet.has_eq, hp, hn]

/-- Reduction of `onPostRendered` when the slug is missing or empty. -/
theorem onPostRendered_noSlug (cfg : HexoConfig) (s : PluginState) (d : PostData)
    (h : optFalsy d.slug = true) :
    onPostRendered cfg s d =
      { state := s
        effects := [.logWarn ("Webhook Ping: Post slug not found, skipping for: " ++ jsOr d.path d.source)]
        ret := d } := by
  simp [onPostRendered, h]

/-- Reduction of `onPostRendered` when the slug is present but the blog URL
is unset or empty. -/
theorem onPostRendered_noUrl (cfg : HexoConfig) (s : PluginState) (d : PostData)
    (h1 : optFalsy d.slug = false) (h2 : optFalsy cfg.webhook_ping_blog_url = true) :
    onPostRendered cfg s d =
      { state := s
        effects := [.logError ("Webhook Ping: webhook_ping_blog_url is not configured in _config.yml. Skipping webhook for post: " ++ d.slug.getD "")]
        ret := d } := by
  simp [onPostRendered, h1, h2]

theorem dropWhile_append_of_stop {p : Char → Bool} (A B : List Char) (c : Char)
    (hc : p c = false) :
    (A ++ c :: B).dropWhile p = A.dropWhile p ++ c :: B := by
  rw [List.dropWhile_append]
  split
  · rename_i hemp
    rw [List.isEmpty_iff.mp hemp]
    rw [List.dropWhile_cons_of_neg (by simp [hc])]
    rfl
  · rfl

theorem stripTrailing_append_stop (A : List Char) (c : Char) (B : List Char)
    (hc : isC0OrSpace c = false) :
    stripTrailingC0OrSpace (A ++ c :: B) = A ++ c :: stripTrailingC0OrSpace B := by
  unfold stripTrailingC0OrSpace
  rw [show (A ++ c :: B : List Char) = (A ++ [c]) ++ B by simp]
  rw [List.reverse_append, List.reverse_append]
  simp only [List.reverse_cons, List.reverse_nil, List.nil_append, List.singleton_append]
  rw [dropWhile_append_of_stop B.reverse A.reverse c hc]
  rw [List.reverse_append]
  simp

theorem specialQueryEncode_cons (c : Char) (t : List Char) :
    specialQueryEncode (c :: t) =
      (if inSpecialQuerySet c then ((utf8Bytes c).map percentEncodeByte).foldr (· ++ ·) []
       else [c]) ++ specialQueryEncode t := by
  by_cases h : inSpecialQuerySet c <;> simp [specialQueryEncode, h]

theorem specialQueryEncode_append (l1 l2 : List Char) :
    specialQueryEncode (l1 ++ l2) = specialQueryEncode l1 ++ specialQueryEncode l2 := by
  induction l1 with
  | nil => rfl
  | cons c t ih =>
      rw [List.cons_append, specialQueryEncode_cons, specialQueryEncode_cons, ih,
        List.append_assoc]

/-- The URL parse of the webhook target built from any slug: host is the
fixed host, the path normalises to `/`, and the query is `?blog=` followed
by the percent-encoded query payload of the slug. -/
theorem parseUrl_webhookTarget (slug : String) :
    parseUrl (webhookTargetUrl slug) =
      { hostname := "ping.bloggerrolle.de", pathname := "/",
        search := "?blog=" ++ String.mk (specialQueryEncode (queryPayloadChars slug)) } := by
  obtain ⟨l⟩ := slug
  show parseUrl (webhookTargetUrl (String.mk l)) =
    { hostname := "ping.bloggerrolle.de", pathname := "/",
      search := "?blog=" ++ String.mk (specialQueryEncode
        (((stripTrailingC0OrSpace l).filter (fun c => !(isTabOrNewline c))).takeWhile
          (fun c => !(c == Char.ofNat 35)))) }
  have hpre : urlPreprocess (webhookTargetUrl (String.mk l)).data
      = "https://".data ++ ("ping.bloggerrolle.de".data ++ (Char.ofNat 63 ::
          ("blog=".data ++ (stripTrailingC0OrSpace l).filter (fun c => !(isTabOrNewline c))))) := by
    show urlPreprocess ("https://ping.bloggerrolle.de?blog=".data ++ l) = _
    unfold urlPreprocess
    rw [List.dropWhile_append]
    rw [show (("https://ping.bloggerrolle.de?blog=".data : List Char).dropWhile isC0OrSpace)
        = "https://ping.bloggerrolle.de?blog=".data from by decide]
    rw [if_neg (by decide)]
    rw [show ("https://ping.bloggerrolle.de?blog=".data ++ l : List Char)
        = "https://ping.bloggerrolle.de?blog".data ++ Char.ofNat 61 :: l from by
          rw [show ("https://ping.bloggerrolle.de?blog=".data : List Char)
            = "https://ping.bloggerrolle.de?blog".data ++ [Char.ofNat 61] from by decide]
          simp]
    rw [stripTrailing_append_stop _ _ _ (by decide)]
    rw [List.filter_append]
    rw [show (("https://ping.bloggerrolle.de?blog".data : List Char).filter
        (fun c => !(isTabOrNewline c))) = "https://ping.bloggerrolle.de?blog".data from by decide]
    rw [show (Char.ofNat 61 :: stripTrailingC0OrSpace l : List Char).filter
        (fun c => !(isTabOrNewline c))
        = Char.ofNat 61 :: (stripTrailingC0OrSpace l).filter (fun c => !(isTabOrNewline c)) from by
          rw [List.filter_cons]
          rw [if_pos (by decide)]]
    rw [show ("https://ping.bloggerrolle.de?blog".data ++ Char.ofNat 61 ::
        (stripTrailingC0OrSpace l).filter (fun c => !(isTabOrNewline c)) : List Char)
        = "https://".data ++ ("ping.bloggerrolle.de".data ++ (Char.ofNat 63 ::
            ("blog=".data ++ (stripTrailingC0OrSpace l).filter (fun c => !(isTabOrNewline c)))))
        from by
          rw [show ("https://ping.bloggerrolle.de?blog".data : List Char)
            = "https://".data ++ ("ping.bloggerrolle.de".data ++ (Char.ofNat 63 :: "blog".data))
            from by decide]
          simp]
  have hping : ∀ a ∈ ("ping.bloggerrolle.de".data : List Char),
      (fun c => !(c == Char.ofNat 47 || c == Char.ofNat 63 || c == Char.ofNat 35)) a = true := by
    decide
  have hblog : ∀ a ∈ ("blog=".data : List Char),
      (fun c => !(c == Char.ofNat 35)) a = true := by decide
  simp only [parseUrl, hpre]
  rw [List.drop_left' (by rfl : ("https://".data : List Char).length = 8)]
  rw [List.takeWhile_append_of_pos hping]
  rw [List.takeWhile_cons_of_neg (by decide)]
  rw [List.append_nil]
  rw [List.drop_left]
  rw [List.takeWhile_cons_of_neg (by decide)]
  simp only [List.length_nil, List.drop_zero]
  rw [List.takeWhile_cons_of_pos (by decide)]
  rw [List.takeWhile_append_of_pos hblog]
  rw [if_pos (show (([] : List Char)).isEmpty = true from rfl)]
  have hq5 : ("blog=".data : List Char).length = 5 := by decide
  rw [if_neg (by simp only [List.length_cons, List.length_append, hq5]; omega)]
  rw [show (Char.ofNat 63 :: ("blog=".data ++
      ((stripTrailingC0OrSpace l).filter (fun c => !(isTabOrNewline c))).takeWhile
        (fun c => !(c == Char.ofNat 35))) : List Char).drop 1
      = "blog=".data ++ ((stripTrailingC0OrSpace l).filter (fun c => !(isTabOrNewline c))).takeWhile
          (fun c => !(c == Char.ofNat 35)) from rfl]
  rw [specialQueryEncode_append]
  rw [show specialQueryEncode ("blog=".data) = "blog=".data from by decide]
  rfl

theorem sameMembers_iff (a b : JsSet) :
    sameMembers a b = true ↔ ∀ x, x ∈ a ↔ x ∈ b := by
  simp only [sameMembers, Bool.and_eq_true, List.all_eq_true, JsSet.contains_eq,
    decide_eq_true_eq]
  constructor
  · rintro ⟨h1, h2⟩ x
    exact ⟨h1 x, h2 x⟩
  · intro hx
    exact ⟨fun x hm => (hx x).mp hm, fun x hm => (hx x).mpr hm⟩

theorem countRequests_nil : countRequests [] = 0 := rfl

theorem countRequests_cons (e : Effect) (es : List Effect) :
    countRequests (e :: es) = countRequests es + (if e.isRequest then 1 else 0) := by
  simp [countRequests, List.countP_cons]

/-- Reduction of `onGenerationComplete` with an empty session set. -/
theorem onGenerationComplete_empty (saveOk : Bool) (s : PluginState) (f : StoredFile)
    (h : s.newSlugsToPingThisSession = []) :
    onGenerationComplete saveOk s f =
      { state := s, file := f
        effects := [.logInfo "Webhook Ping: No new posts were identified for pinging in this session."] } := by
  unfold onGenerationComplete
  rw [h]
  simp

/-- Reduction of `onGenerationComplete` with a non-empty session set and a
successful save. -/
theorem onGenerationComplete_saveOk (s : PluginState) (f : StoredFile)
    (h : s.newSlugsToPingThisSession ≠ []) :
    onGenerationComplete true s f =
      { state := { previouslyPingedSlugs := mergeInto s.previouslyPingedSlugs s.newSlugsToPingThisSession
                   newSlugsToPingThisSession := [] }
        file := .jsonArray (mergeInto s.previouslyPingedSlugs s.newSlugsToPingThisSession)
        effects :=
          [.logInfo ("Webhook Ping: Attempting to save " ++ toString s.newSlugsToPingThisSession.length ++ " newly pinged slugs."),
           .logInfo ("Webhook Ping: Successfully saved pinged slugs. Total distinct posts pinged: " ++ toString (mergeInto s.previouslyPingedSlugs s.newSlugsToPingThisSession).length)] } := by
  unfold onGenerationComplete
  rw [if_pos (List.length_pos.mpr h), if_pos rfl]

/-- Reduction of `onGenerationComplete` with a non-empty session set and a
failing save: the merge into the in-memory persisted set has already
happened, the session set survives, the file is untouched. -/
theorem onGenerationComplete_saveFail (s : PluginState) (f : StoredFile)
    (h : s.newSlugsToPingThisSession ≠ []) :
    onGenerationComplete false s f =
      { state := { previouslyPingedSlugs := mergeInto s.previouslyPingedSlugs s.newSlugsToPingThisSession
                   newSlugsToPingThisSession := s.newSlugsToPingThisSession }
        file := f
        effects :=
          [.logInfo ("Webhook Ping: Attempting to save " ++ toString s.newSlugsToPingThisSession.length ++ " newly pinged slugs."),
           .logError "Webhook Ping: Error saving pinged_posts.json:",
           .logWarn "Webhook Ping: Slugs pinged in this session might be re-pinged next time due to save error."] } := by
  unfold onGenerationComplete
  rw [if_pos (List.length_pos.mpr h), if_neg (by decide)]

/-! ## The specification's claims -/

/-- C1: for an identifier absent from both the persisted set and the session
set, a render event with a valid slug and a configured blog URL initiates
exactly one outbound dispatch and appends the slug to the session set
exactly once; a second render event for the same slug in the same run
initiates no dispatch and leaves the state exactly as after the first
call. -/
theorem c1_render_once_idempotent (cfg : HexoConfig) (s : PluginState) (d : PostData)
    (slug url : String)
    (hd : d.slug = some slug) (hs : slug ≠ "")
    (hc : cfg.webhook_ping_blog_url = some url) (hu : url ≠ "")
    (hp : slug ∉ s.previouslyPingedSlugs) (hn : slug ∉ s.newSlugsToPingThisSession) :
    countRequests (onPostRendered cfg s d).effects = 1 ∧
    (onPostRendered cfg s d).state.newSlugsToPingThisSession =
      s.newSlugsToPingThisSession ++ [slug] ∧
    (onPostRendered cfg s d).state.previouslyPingedSlugs = s.previouslyPingedSlugs ∧
    countRequests (onPostRendered cfg (onPostRendered cfg s d).state d).effects = 0 ∧
    (onPostRendered cfg (onPostRendered cfg s d).state d).state =
      (onPostRendered cfg s d).state := by
  have e1 := onPostRendered_dispatch cfg s d slug url hd hs hc hu hp hn
  have e2 : onPostRendered cfg (onPostRendered cfg s d).state d =
      { state := (onPostRendered cfg s d).state
        effects := [.logInfo ("Webhook Ping: Post " ++ slug ++ " is already scheduled for ping in this session. Skipping duplicate.")]
        ret := d } := by
    rw [e1]
    exact onPostRendered_sessionSkip cfg _ d slug url hd hs hc hu hp (by simp)
  rw [e2, e1]
  exact ⟨rfl, rfl, rfl, rfl, rfl⟩

/-- Witness for C1: slug `"a"`, blog URL `"https://x.test"`, empty state. -/
theorem c1_witness :
    countRequests (onPostRendered ⟨some "https://x.test"⟩ ⟨[], []⟩
      ⟨some "a", none, none, "c"⟩).effects = 1 ∧
    (onPostRendered ⟨some "https://x.test"⟩ ⟨[], []⟩
      ⟨some "a", none, none, "c"⟩).state.newSlugsToPingThisSession = ["a"] ∧
    (onPostRendered ⟨some "https://x.test"⟩ ⟨[], []⟩
      ⟨some "a", none, none, "c"⟩).state.previouslyPingedSlugs = [] ∧
    countRequests (onPostRendered ⟨some "https://x.test"⟩
      (onPostRendered ⟨some "https://x.test"⟩ ⟨[], []⟩ ⟨some "a", none, none, "c"⟩).state
      ⟨some "a", none, none, "c"⟩).effects = 0 ∧
    (onPostRendered ⟨some "https://x.test"⟩
      (onPostRendered ⟨some "https://x.test"⟩ ⟨[], []⟩ ⟨some "a", none, none, "c"⟩).state
      ⟨some "a", none, none, "c"⟩).state =
      (onPostRendered ⟨some "https://x.test"⟩ ⟨[], []⟩ ⟨some "a", none, none, "c"⟩).state :=
  c1_render_once_idempotent ⟨some "https://x.test"⟩ ⟨[], []⟩ ⟨some "a", none, none, "c"⟩
    "a" "https://x.test" rfl (by decide) rfl (by decide) (by simp) (by simp)

/-- C4: a render event for a slug already in the persisted set initiates no
dispatch and changes no state, whatever the configuration. -/
theorem c4_already_pinged_skip (cfg : HexoConfig) (s : PluginState) (d : PostData)
    (slug : String)
    (hd : d.slug = some slug) (hp : slug ∈ s.previouslyPingedSlugs) :
    (onPostRendered cfg s d).state = s ∧
    countRequests (onPostRendered cfg s d).effects = 0 := by
  by_cases hs : slug = ""
  · subst hs
    rw [onPostRendered_noSlug cfg s d (by rw [hd]; decide)]
    exact ⟨rfl, rfl⟩
  · by_cases hc : optFalsy cfg.webhook_ping_blog_url = true
    · rw [onPostRendered_noUrl cfg s d
        (by rw [hd]; simp [optFalsy, isEmpty_false_of_ne slug hs]) hc]
      exact ⟨rfl, rfl⟩
    · rcases hcu : cfg.webhook_ping_blog_url with _ | url
      · exact absurd (by simp [optFalsy, hcu]) hc
      · have hu : url ≠ "" := by
          intro he
          exact hc (by rw [hcu, he]; decide)
        rw [onPostRendered_prevSkip cfg s d slug url hd hs hcu hu hp]
        exact ⟨rfl, rfl⟩

/-- Witness for C4: persisted set `["a"]`, render event for `"a"`. -/
theorem c4_witness :
    (onPostRendered ⟨some "https://x.test"⟩ ⟨["a"], []⟩
      ⟨some "a", none, none, "c"⟩).state = ⟨["a"], []⟩ ∧
    countRequests (onPostRendered ⟨some "https://x.test"⟩ ⟨["a"], []⟩
      ⟨some "a", none, none, "c"⟩).effects = 0 :=
  c4_already_pinged_skip ⟨some "https://x.test"⟩ ⟨["a"], []⟩
    ⟨some "a", none, none, "c"⟩ "a" rfl (by simp)

/-- C5: with the blog URL unset or empty, a render event performs no
dispatch and no state mutation, and a later call under any configuration
behaves exactly as if this call had never happened (the identifier stays
eligible). -/
theorem c5_unconfigured_noop (cfg : HexoConfig) (s : PluginState) (d : PostData)
    (hc : optFalsy cfg.webhook_ping_blog_url = true) :
    (onPostRendered cfg s d).state = s ∧
    countRequests (onPostRendered cfg s d).effects = 0 ∧
    (∀ cfg2 : HexoConfig,
      onPostRendered cfg2 (onPostRendered cfg s d).state d = onPostRendered cfg2 s d) := by
  by_cases h1 : optFalsy d.slug = true
  · rw [onPostRendered_noSlug cfg s d h1]
    exact ⟨rfl, rfl, fun cfg2 => rfl⟩
  · rw [onPostRendered_noUrl cfg s d (Bool.eq_false_iff.mpr h1) hc]
    exact ⟨rfl, rfl, fun cfg2 => rfl⟩

/-- Witness for C5: URL unset, render event for `"a"`, then a configured
run dispatches as if the unconfigured call never happened. -/
theorem c5_witness :
    (onPostRendered ⟨none⟩ ⟨[], []⟩ ⟨some "a", none, none, "c"⟩).state = ⟨[], []⟩ ∧
    countRequests (onPostRendered ⟨none⟩ ⟨[], []⟩ ⟨some "a", none, none, "c"⟩).effects = 0 ∧
    onPostRendered ⟨some "https://x.test"⟩
      (onPostRendered ⟨none⟩ ⟨[], []⟩ ⟨some "a", none, none, "c"⟩).state
      ⟨some "a", none, none, "c"⟩ =
      onPostRendered ⟨some "https://x.test"⟩ ⟨[], []⟩ ⟨some "a", none, none, "c"⟩ :=
  ⟨(c5_unconfigured_noop ⟨none⟩ ⟨[], []⟩ ⟨some "a", none, none, "c"⟩ rfl).1,
   (c5_unconfigured_noop ⟨none⟩ ⟨[], []⟩ ⟨some "a", none, none, "c"⟩ rfl).2.1,
   (c5_unconfigured_noop ⟨none⟩ ⟨[], []⟩ ⟨some "a", none, none, "c"⟩ rfl).2.2
     ⟨some "https://x.test"⟩⟩

/-- C9: in every branch the filter returns the `data` object it received,
unmodified. -/
theorem c9_returns_input (cfg : HexoConfig) (s : PluginState) (d : PostData) :
    (onPostRendered cfg s d).ret = d := by
  by_cases h1 : optFalsy d.slug = true
  · rw [onPostRendered_noSlug cfg s d h1]
  · by_cases h2 : optFalsy cfg.webhook_ping_blog_url = true
    · rw [onPostRendered_noUrl cfg s d (Bool.eq_false_iff.mpr h1) h2]
    · simp only [onPostRendered, Bool.eq_false_iff.mpr h1, Bool.eq_false_iff.mpr h2,
        Bool.false_eq_true, if_false]
      split
      · rfl
      · split
        · rfl
        · rfl

/-- C10: an empty-string slug is treated exactly like a missing slug: a
warning is logged, no dispatch happens, the state is unchanged, and the
effect trace coincides with the missing-slug trace. -/
theorem c10_empty_slug_as_missing (cfg : HexoConfig) (s : PluginState) (d : PostData)
    (hd : d.slug = some "") :
    (onPostRendered cfg s d).state = s ∧
    countRequests (onPostRendered cfg s d).effects = 0 ∧
    (onPostRendered cfg s d).effects =
      [.logWarn ("Webhook Ping: Post slug not found, skipping for: " ++ jsOr d.path d.source)] ∧
    (onPostRendered cfg s d).effects =
      (onPostRendered cfg s { d with slug := none }).effects := by
  rw [onPostRendered_noSlug cfg s d (by rw [hd]; decide)]
  rw [onPostRendered_noSlug cfg s { d with slug := none } rfl]
  exact ⟨rfl, rfl, rfl, rfl⟩

/-- Witness for C10: slug `""` with a configured URL. -/
theorem c10_witness :
    (onPostRendered ⟨some "https://x.test"⟩ ⟨[], []⟩
      ⟨some "", some "p.md", none, "c"⟩).state = ⟨[], []⟩ ∧
    countRequests (onPostRendered ⟨some "https://x.test"⟩ ⟨[], []⟩
      ⟨some "", some "p.md", none, "c"⟩).effects = 0 ∧
    (onPostRendered ⟨some "https://x.test"⟩ ⟨[], []⟩
      ⟨some "", some "p.md", none, "c"⟩).effects =
      [.logWarn ("Webhook Ping: Post slug not found, skipping for: " ++
        jsOr (some "p.md") none)] ∧
    (onPostRendered ⟨some "https://x.test"⟩ ⟨[], []⟩
      ⟨some "", some "p.md", none, "c"⟩).effects =
      (onPostRendered ⟨some "https://x.test"⟩ ⟨[], []⟩
        ⟨none, some "p.md", none, "c"⟩).effects :=
  c10_empty_slug_as_missing ⟨some "https://x.test"⟩ ⟨[], []⟩
    ⟨some "", some "p.md", none, "c"⟩ rfl

/-- C2: when a save actually happens (session set non-empty) and succeeds,
reloading the persisted file yields a set with exactly the members of the
pre-commit union of the persisted set and the session set. -/
theorem c2_commit_roundtrip (s : PluginState) (f : StoredFile)
    (hstage : s.newSlugsToPingThisSession ≠ []) :
    sameMembers (load (onGenerationComplete true s f).file).slugs
      (s.previouslyPingedSlugs ++ s.newSlugsToPingThisSession) = true := by
  rw [onGenerationComplete_saveOk s f hstage]
  rw [sameMembers_iff]
  intro x
  show x ∈ JsSet.ofArray (mergeInto s.previouslyPingedSlugs s.newSlugsToPingThisSession) ↔ _
  rw [mem_ofArray, mem_mergeInto]
  simp [List.mem_append]

/-- The configuration of the spec's round-trip scenario. -/
def scenarioConfig : HexoConfig := ⟨some "https://x.test"⟩

/-- The spec's round-trip scenario state: start from an absent persisted
file, then render events for `"a"` and `"b"`. -/
def scenarioTwoPosts : PluginState :=
  (onPostRendered scenarioConfig
    (onPostRendered scenarioConfig ⟨(load .absent).slugs, []⟩ ⟨some "a", none, none, "pa"⟩).state
    ⟨some "b", none, none, "pb"⟩).state

/-- Witness for C2: in the scenario the pre-commit union is exactly
`["a", "b"]`, and the reloaded persisted file has the same members. -/
theorem c2_witness :
    scenarioTwoPosts.previouslyPingedSlugs ++ scenarioTwoPosts.newSlugsToPingThisSession =
      ["a", "b"] ∧
    sameMembers (load (onGenerationComplete true scenarioTwoPosts .absent).file).slugs
      (scenarioTwoPosts.previouslyPingedSlugs ++ scenarioTwoPosts.newSlugsToPingThisSession) =
      true :=
  ⟨by decide, c2_commit_roundtrip scenarioTwoPosts .absent (by decide)⟩

/-- C3: a failed save leaves the session set exactly as it was before the
call, and a subsequent successful completion event persists every one of
those identifiers. -/
theorem c3_save_failure_keeps_stage (s : PluginState) (f : StoredFile) :
    (onGenerationComplete false s f).state.newSlugsToPingThisSession =
      s.newSlugsToPingThisSession ∧
    (s.newSlugsToPingThisSession.all (fun x =>
      ((load (onGenerationComplete true (onGenerationComplete false s f).state
          (onGenerationComplete false s f).file).file).slugs).contains x)) = true := by
  by_cases hstage : s.newSlugsToPingThisSession = []
  · constructor
    · rw [onGenerationComplete_empty false s f hstage]
    · rw [hstage]
      rfl
  · constructor
    · rw [onGenerationComplete_saveFail s f hstage]
    · have hres : (load (onGenerationComplete true (onGenerationComplete false s f).state
          (onGenerationComplete false s f).file).file).slugs =
          JsSet.ofArray (mergeInto
            (mergeInto s.previouslyPingedSlugs s.newSlugsToPingThisSession)
            s.newSlugsToPingThisSession) := by
        rw [onGenerationComplete_saveFail s f hstage]
        rw [onGenerationComplete_saveOk
          ⟨mergeInto s.previouslyPingedSlugs s.newSlugsToPingThisSession,
            s.newSlugsToPingThisSession⟩ f hstage]
        rfl
      rw [hres, List.all_eq_true]
      intro x hx
      rw [JsSet.contains_eq]
      simp only [decide_eq_true_eq]
      rw [mem_ofArray, mem_mergeInto]
      exact Or.inr hx

/-- C6: in the dispatch branch of `onPostRendered` the slug is staged
(`stageSlug`, source line 91) strictly before the request initiation
(`httpsRequest`, source line 93) in the effect trace, and the asynchronous
continuations never change the two sets: `onResponseEnd` and
`onRequestError` pass the state through untouched whatever the status code,
body or error message, and `onResponseData` only accumulates the body. -/
theorem c6_stage_before_request (cfg : HexoConfig) (s : PluginState) (d : PostData)
    (slug url : String)
    (hd : d.slug = some slug) (hs : slug ≠ "")
    (hc : cfg.webhook_ping_blog_url = some url) (hu : url ≠ "")
    (hp : slug ∉ s.previouslyPingedSlugs) (hn : slug ∉ s.newSlugsToPingThisSession) :
    (onPostRendered cfg s d).effects =
      [.logInfo ("Webhook Ping: Pinging for NEW post: " ++ slug ++ " to " ++ webhookTargetUrl slug),
       .stageSlug slug,
       .httpsRequest slug (requestOptions slug url) (requestBody url)] ∧
    (onPostRendered cfg s d).effects.get? 1 = some (.stageSlug slug) ∧
    (onPostRendered cfg s d).effects.get? 2 =
      some (.httpsRequest slug (requestOptions slug url) (requestBody url)) ∧
    (∀ (s2 : PluginState) (code : Nat) (t sl rb : String),
      (onResponseEnd s2 code t sl rb).1 = s2) ∧
    (∀ (s2 : PluginState) (t sl m : String), (onRequestError s2 t sl m).1 = s2) ∧
    (∀ (rb ch : String), onResponseData rb ch = rb ++ ch) := by
  rw [onPostRendered_dispatch cfg s d slug url hd hs hc hu hp hn]
  exact ⟨rfl, rfl, rfl, fun _ _ _ _ _ => rfl, fun _ _ _ _ => rfl, fun _ _ => rfl⟩

/-- Witness for C6: slug `"a"`, blog URL `"https://x.test"`, empty state,
with the continuations run at concrete arguments. -/
theorem c6_witness :
    (onPostRendered ⟨some "https://x.test"⟩ ⟨[], []⟩ ⟨some "a", none, none, "c"⟩).effects =
      [.logInfo ("Webhook Ping: Pinging for NEW post: " ++ "a" ++ " to " ++ webhookTargetUrl "a"),
       .stageSlug "a",
       .httpsRequest "a" (requestOptions "a" "https://x.test") (requestBody "https://x.test")] ∧
    (onResponseEnd ⟨[], ["a"]⟩ 200 "t" "a" "ok").1 = ⟨[], ["a"]⟩ ∧
    (onRequestError ⟨[], ["a"]⟩ "t" "a" "refused").1 = ⟨[], ["a"]⟩ ∧
    onResponseData "re" "sp" = "re" ++ "sp" := by
  have h := c6_stage_before_request ⟨some "https://x.test"⟩ ⟨[], []⟩
    ⟨some "a", none, none, "c"⟩ "a" "https://x.test"
    rfl (by decide) rfl (by decide) (by simp) (by simp)
  exact ⟨h.1, h.2.2.2.1 ⟨[], ["a"]⟩ 200 "t" "a" "ok",
    h.2.2.2.2.1 ⟨[], ["a"]⟩ "t" "a" "refused", h.2.2.2.2.2 "re" "sp"⟩

/-- C7 counterexample: a persisted file whose content is valid JSON but not
an array (here the JSON number `42`) is treated as the empty set, but the
load produces no log line at all — contradicting the claim that this
failure is logged. -/
theorem c7_counterexample :
    (load (StoredFile.jsonNonArray "42")).slugs = [] ∧
    (load (StoredFile.jsonNonArray "42")).effects = [] :=
  ⟨rfl, rfl⟩

/-- C7 amended: load never blocks startup and fails open — an absent file
yields the empty set with no error log; an unparseable file yields the
empty set with an error log; a parseable non-array file yields the empty
set silently (no log of any kind, which is where the original claim erred);
an array yields exactly its members. -/
theorem c7_load_fail_open :
    ((load .absent).slugs = [] ∧
      (load .absent).effects.any Effect.isErrorLog = false) ∧
    (∀ raw : String, (load (.invalidJson raw)).slugs = [] ∧
      (load (.invalidJson raw)).effects.any Effect.isErrorLog = true) ∧
    (∀ raw : String, (load (.jsonNonArray raw)).slugs = [] ∧
      (load (.jsonNonArray raw)).effects = []) ∧
    (∀ (items : List String) (x : String),
      x ∈ (load (.jsonArray items)).slugs ↔ x ∈ items) :=
  ⟨⟨rfl, rfl⟩, fun _ => ⟨rfl, rfl⟩, fun _ => ⟨rfl, rfl⟩, fun items x => mem_ofArray items x⟩

/-- C8 counterexample: the outbound host in the code is
`ping.bloggerrolle.de`, not `ping.example-target.tld` as the claim states,
shown at slug `"a"` and blog URL `"https://x.test"`. -/
theorem c8_counterexample :
    (requestOptions "a" "https://x.test").hostname = "ping.bloggerrolle.de" ∧
    (requestOptions "a" "https://x.test").hostname ≠ "ping.example-target.tld" :=
  ⟨by decide, by decide⟩

/-- C8 amended: for every slug and every blog URL, the outbound request is
a POST to host `ping.bloggerrolle.de` on port 443, with path
`/?blog=<query payload of the slug>` — the slug as the WHATWG URL parser
serialises it in query position (trailing control/space strip, tab/newline
removal, fragment truncation at `#`, special-query percent-encoding) —
content type `application/x-www-form-urlencoded`, and a form-encoded body
`url=<escaped blog URL>` whose UTF-8 byte length is the declared content
length. -/
theorem c8_request_format (slug url : String) :
    (requestOptions slug url).hostname = "ping.bloggerrolle.de" ∧
    (requestOptions slug url).port = 443 ∧
    (requestOptions slug url).method = "POST" ∧
    (requestOptions slug url).path =
      "/?blog=" ++ String.mk (specialQueryEncode (queryPayloadChars slug)) ∧
    (requestOptions slug url).contentType = "application/x-www-form-urlencoded" ∧
    requestBody url = "url=" ++ qsEscape url ∧
    (requestOptions slug url).contentLength = byteLength (requestBody url) := by
  have hparse := parseUrl_webhookTarget slug
  refine ⟨?_, rfl, rfl, ?_, rfl, rfl, rfl⟩
  · show (parseUrl (webhookTargetUrl slug)).hostname = _
    rw [hparse]
  · show (parseUrl (webhookTargetUrl slug)).pathname ++
        (parseUrl (webhookTargetUrl slug)).search =
      "/?blog=" ++ String.mk (specialQueryEncode (queryPayloadChars slug))
    rw [hparse]
    rfl

end WebhookPing
